import Mathlib

/-!
Shallow embedding of `server/grpc_server.go` from the gsv repository
(package `server`), and proofs about its registration, startup,
discovery-registration, gateway and shutdown behaviour.

The embedding follows the Go source line by line:

* `Register` (grpc_server.go:105-118) validates the service descriptor and
  appends to `serviceList`.
* `Run` (grpc_server.go:120-161) dials the loopback connection, runs the
  service-binding loop, then starts the gateway unit (when `enableGateway`)
  and the binary unit as concurrent goroutines joined by a `sync.WaitGroup`.
* `run` (grpc_server.go:163-193) listens on the binary port, registers one
  GRPC discovery node per service, then serves.
* `runGateway` (grpc_server.go:195-225) registers one HTTP discovery node
  per service, then calls `ListenAndServe`; its shutdown watcher logs a
  shutdown error without failing the unit.
* `findListenOn` (grpc_server.go:227-229) returns the empty string.

Stateful and concurrent behaviour is modelled by explicit event traces:
each serving unit produces the sequence of externally visible actions it
performs, `Run` interleaves the two unit traces under an arbitrary
scheduler, and a final `runReturn` event is appended only once both units
have terminated (the `wg.Wait()` join).  Fatal exits (`log.Fatal`, or the
out-of-range slice access in the binding loop) end the execution with
`completed = false`.  External collaborators (`grpc.Dial`, `net.Listen`,
`ListenAndServe`, the discovery registrar, `Shutdown`) are modelled by an
environment recording their success or failure.
-/

namespace Gsv

/-- Modelled from the spec: the discovery protocol enum
(`discovery.GRPC`, `discovery.HTTP`), the two transports a Node can
advertise. -/
inductive Protocol where
  | GRPC
  | HTTP
  deriving DecidableEq

/-- A gateway-binding function (`func(ctx, mux, conn) error` in
`desc.GrpcGateway`), modelled by an identifier and the error it returns
(`none` = success). -/
structure GatewayBindFn where
  id : Nat
  err : Option String
  deriving DecidableEq

/-- Modelled from the spec: the service descriptor
`{valid, methodBindings, gatewayBindings}` returned by
`service.Description()`.  Field names follow the Go code's uses:
`desc.Valid`, `desc.GrpcServiceDesc` (method bindings, modelled as opaque
names), `desc.GrpcGateway`. -/
structure ServiceDesc where
  Valid : Bool
  GrpcServiceDesc : List String
  GrpcGateway : List GatewayBindFn
  deriving DecidableEq

/-- Modelled from the spec: a registered service, an opaque business
object exposing a descriptor; `name` is its service identity used in
discovery Nodes. -/
structure Service where
  name : String
  desc : ServiceDesc
  deriving DecidableEq

/-- `srv.Description()` of the Go service contract. -/
def Service.Description (s : Service) : ServiceDesc := s.desc

/-- Modelled from the spec: a discovery Node record
`{host, port, protocol, serviceIdentity}`. -/
structure Node where
  host : String
  port : Nat
  protocol : Protocol
  serviceName : String
  deriving DecidableEq

/-- Modelled from the spec: `discovery.NewNode(host, port, protocol, srv)`
produces the Node record advertising `srv` on one transport. -/
def NewNode (host : String) (port : Nat) (protocol : Protocol) (srv : Service) : Node :=
  { host := host, port := port, protocol := protocol, serviceName := srv.name }

/-- The `grpcServer` struct (grpc_server.go:22-37).  The opaque handles
(`gSrv`, interceptor chains, `statHandler`, `traceOption`, `gatewayMux`)
are external collaborators and carry no state the orchestration logic
reads; `register` and `gSrvGateway` are modelled by their nil-ness, which
is all the code tests. -/
structure GrpcServer where
  host : String
  port : Nat
  proxyPort : Nat
  /-- `true` iff the `register` field (discovery registrar) is non-nil. -/
  register : Bool
  enableGateway : Bool
  /-- `true` iff the `gSrvGateway` http server handle is non-nil. -/
  gSrvGateway : Bool
  serviceList : List Service
  deriving DecidableEq

/-- `findListenOn` (grpc_server.go:227-229): the host-address resolver,
a stub returning the empty string. -/
def GrpcServer.findListenOn (_gs : GrpcServer) : String := ""

/-- The relevant fields of the `Option` configuration struct consumed by
`newGrpcServer` (named `ServerOption` here because `Option` is taken in
Lean).  `ServerRegister` is modelled by its nil-ness. -/
structure ServerOption where
  Port : Nat
  ProxyPort : Nat
  ServerRegister : Bool
  EnableGrpcGateway : Bool

/-- `newGrpcServer` (grpc_server.go:39-84): builds the server, sets
`host` from `findListenOn`, and allocates the gateway http server handle
exactly when `EnableGrpcGateway` is set. -/
def newGrpcServer (opt : ServerOption) : GrpcServer :=
  let s0 : GrpcServer :=
    { host := ""
      port := opt.Port
      proxyPort := opt.ProxyPort
      register := opt.ServerRegister
      enableGateway := opt.EnableGrpcGateway
      gSrvGateway := opt.EnableGrpcGateway
      serviceList := [] }
  { s0 with host := s0.findListenOn }

/-- `Register` (grpc_server.go:105-118): rejects an invalid descriptor,
rejects an empty method-binding list, otherwise appends the service. -/
def Register (gs : GrpcServer) (srv : Service) : Except String GrpcServer :=
  let desc := srv.Description
  if !desc.Valid then
    Except.error "invalid service description"
  else if desc.GrpcServiceDesc.length = 0 then
    Except.error "not invalid grpc service desc"
  else
    Except.ok { gs with serviceList := gs.serviceList ++ [srv] }

/-- Registers a list of services in order, keeping the server unchanged on
each rejected service (in Go a failed `Register` call leaves the receiver
untouched). -/
def registerAll (gs : GrpcServer) : List Service → GrpcServer
  | [] => gs
  | s :: rest =>
    match Register gs s with
    | Except.ok gs2 => registerAll gs2 rest
    | Except.error _ => registerAll gs rest

/-- The two concurrent serving units started by `Run`. -/
inductive UnitKind where
  | rpc
  | gateway
  deriving DecidableEq

/-- Externally visible actions of `Run` and its two serving units. -/
inductive Event where
  /-- `grpc.Dial("127.0.0.1:port")` (grpc_server.go:123). -/
  | dialLoopback (port : Nat)
  /-- `gSrv.RegisterService(&desc.GrpcServiceDesc[i], ...)` (grpc_server.go:131). -/
  | bindMethod (svcIdx : Nat) (binding : String)
  /-- invocation of a gateway-binding function `f(ctx, mux, conn)` (grpc_server.go:134). -/
  | invokeGatewayBind (fnId : Nat)
  /-- `net.Listen("tcp", ...)` succeeded (grpc_server.go:164). -/
  | listenRpc (port : Nat)
  /-- the gateway's `ListenAndServe` bound its socket (grpc_server.go:219). -/
  | listenHttp (port : Nat)
  /-- `gs.register.Register(node)` submitted a node (grpc_server.go:180, 212). -/
  | registerNode (n : Node)
  /-- `gSrv.Serve(lis)` accepted traffic and returned after graceful stop. -/
  | serveRpc
  /-- the gateway served http traffic and was gracefully shut down. -/
  | serveHttp
  /-- `logger.Error(...)` (grpc_server.go:205, failed http shutdown). -/
  | logError (msg : String)
  /-- a serving goroutine ran to completion (`wg.Done()`). -/
  | unitDone (u : UnitKind)
  /-- `Run` passed `wg.Wait()` and returned to its caller. -/
  | runReturn
  deriving DecidableEq

/-- Outcomes of the external collaborators during one `Run` invocation. -/
structure Env where
  /-- `grpc.Dial` result (grpc_server.go:123). -/
  dialOk : Bool
  /-- `net.Listen` result for the binary port (grpc_server.go:164). -/
  listenRpcOk : Bool
  /-- whether `ListenAndServe` bound the proxy port (grpc_server.go:219). -/
  listenHttpOk : Bool
  /-- result of each `register.Register(node)` call. -/
  registerOk : Node → Bool
  /-- error returned by `gSrvGateway.Shutdown` on cancellation (grpc_server.go:204). -/
  shutdownErr : Option String

/-- How the service-binding loop of `Run` can abort. -/
inductive BindFailure where
  /-- index-out-of-range panic on `desc.GrpcServiceDesc[i]` (grpc_server.go:131). -/
  | outOfRange (i : Nat)
  /-- a gateway-binding function returned an error, `log.Fatal` (grpc_server.go:135). -/
  | fatal (msg : String)
  deriving DecidableEq

/-- The inner loop over `desc.GrpcGateway` (grpc_server.go:133-137):
invokes each function in order, aborting on the first error. -/
def gatewayFnLoop : List GatewayBindFn → List Event × Option String
  | [] => ([], none)
  | f :: rest =>
    match f.err with
    | some e => ([Event.invokeGatewayBind f.id], some e)
    | none =>
      let r := gatewayFnLoop rest
      (Event.invokeGatewayBind f.id :: r.1, r.2)

/-- The service-binding loop of `Run` (grpc_server.go:128-138), iterating
over `serviceList` with running index `i`: accesses
`desc.GrpcServiceDesc[i]` (out-of-range panic when the i-th service has at
most i method bindings), registers that one binding, then runs the
service's gateway-binding functions. -/
def bindLoopGo : List Service → Nat → List Event × Option BindFailure
  | [], _ => ([], none)
  | s :: rest, i =>
    match s.Description.GrpcServiceDesc[i]? with
    | none => ([], some (BindFailure.outOfRange i))
    | some b =>
      let g := gatewayFnLoop s.Description.GrpcGateway
      match g.2 with
      | some e => (Event.bindMethod i b :: g.1, some (BindFailure.fatal e))
      | none =>
        let r := bindLoopGo rest (i + 1)
        (Event.bindMethod i b :: g.1 ++ r.1, r.2)

/-- The whole binding loop of `Run`, started at index 0. -/
def bindLoop (gs : GrpcServer) : List Event × Option BindFailure :=
  bindLoopGo gs.serviceList 0

/-- The discovery-registration loop shared by `run` (grpc_server.go:178-183)
and `runGateway` (grpc_server.go:210-215): submits one node per service in
order, returning the first registration error. -/
def registerLoop (rOk : Node → Bool) (mk : Service → Node) :
    List Service → List Event × Option String
  | [] => ([], none)
  | s :: rest =>
    let n := mk s
    if rOk n then
      let r := registerLoop rOk mk rest
      (Event.registerNode n :: r.1, r.2)
    else
      ([Event.registerNode n], some "register error")

/-- The binary-serve unit `run` (grpc_server.go:163-193): listen on the
binary port, submit one GRPC node per service (when a registrar is
configured), then serve until the cancellation watcher gracefully stops
the listener. -/
def runU (env : Env) (gs : GrpcServer) : List Event × Option String :=
  if !env.listenRpcOk then
    ([], some "listen error")
  else
    let reg :=
      if gs.register then
        registerLoop env.registerOk (fun s => NewNode gs.host gs.port Protocol.GRPC s)
          gs.serviceList
      else ([], none)
    match reg.2 with
    | some e => (Event.listenRpc gs.port :: reg.1, some e)
    | none => (Event.listenRpc gs.port :: reg.1 ++ [Event.serveRpc], none)

/-- The gateway-serve unit `runGateway` (grpc_server.go:195-225): no-op
when the http server handle is nil; otherwise submit one HTTP node per
service (when a registrar is configured), then `ListenAndServe`.  The
shutdown watcher logs a `Shutdown` error; after a successful bind,
`ListenAndServe` returns `http.ErrServerClosed` once shut down, which the
unit treats as success. -/
def runGatewayU (env : Env) (gs : GrpcServer) : List Event × Option String :=
  if !gs.gSrvGateway then
    ([], none)
  else
    let reg :=
      if gs.register then
        registerLoop env.registerOk (fun s => NewNode gs.host gs.proxyPort Protocol.HTTP s)
          gs.serviceList
      else ([], none)
    match reg.2 with
    | some e => (reg.1, some e)
    | none =>
      if !env.listenHttpOk then
        (reg.1, some "listen and serve error")
      else
        let shut :=
          match env.shutdownErr with
          | some e => [Event.logError e]
          | none => []
        (reg.1 ++ [Event.listenHttp gs.proxyPort, Event.serveHttp] ++ shut, none)

/-- An arbitrary interleaving of the two units' event sequences: the
scheduler `s` picks which unit performs the next action; once it runs out
of choices the remaining actions are appended. -/
def interleave {α : Type} : List Bool → List α → List α → List α
  | [], xs, ys => xs ++ ys
  | true :: _, [], ys => ys
  | true :: s, x :: xs, ys => x :: interleave s xs ys
  | false :: _, xs, [] => xs
  | false :: s, xs, y :: ys => y :: interleave s xs ys

/-- Result of one `Run` invocation: the event trace, whether the process
survived (`log.Fatal` and panics set this to `false`), and the server
state afterwards (`Run` reads but never writes the `grpcServer` fields
modelled here). -/
structure RunResult where
  trace : List Event
  completed : Bool
  server : GrpcServer

/-- `Run` (grpc_server.go:120-161): dial the loopback connection
(unconditionally, before anything else), run the service-binding loop,
then start the gateway goroutine (only when `enableGateway`) and the
binary-serve goroutine, interleaved under the scheduler; `wg.Wait()` lets
`Run` return only after both goroutines are done, and a `log.Fatal` from
either unit kills the process instead. -/
def RunExec (env : Env) (sched : List Bool) (gs : GrpcServer) : RunResult :=
  if !env.dialOk then
    { trace := [Event.dialLoopback gs.port], completed := false, server := gs }
  else
    let b := bindLoop gs
    match b.2 with
    | some _ =>
      { trace := Event.dialLoopback gs.port :: b.1, completed := false, server := gs }
    | none =>
      let gw := if gs.enableGateway then runGatewayU env gs else ([], none)
      let gwTrace :=
        gw.1 ++ (if gw.2.isNone ∧ gs.enableGateway then [Event.unitDone UnitKind.gateway] else [])
      let rpc := runU env gs
      let rpcTrace := rpc.1 ++ (if rpc.2.isNone then [Event.unitDone UnitKind.rpc] else [])
      let fatal := gw.2.isSome ∨ rpc.2.isSome
      { trace :=
          Event.dialLoopback gs.port :: b.1 ++ interleave sched gwTrace rpcTrace ++
            (if fatal then [] else [Event.runReturn])
        completed := !fatal
        server := gs }

/-- Number of discovery nodes of a given protocol submitted in a trace. -/
def countNodes (p : Protocol) (evs : List Event) : Nat :=
  evs.countP (fun e =>
    match e with
    | Event.registerNode n => n.protocol == p
    | _ => false)

/-! ### Sample data used by concrete evaluations -/

/-- A service with an invalid descriptor. -/
def svcInvalid : Service :=
  { name := "Bad", desc := { Valid := false, GrpcServiceDesc := ["m"], GrpcGateway := [] } }

/-- A valid descriptor with no method bindings. -/
def svcEmpty : Service :=
  { name := "Empty", desc := { Valid := true, GrpcServiceDesc := [], GrpcGateway := [] } }

/-- A valid service with one method binding. -/
def svcFoo : Service :=
  { name := "Foo", desc := { Valid := true, GrpcServiceDesc := ["fooMethod"], GrpcGateway := [] } }

/-- A second valid service with one method binding. -/
def svcBar : Service :=
  { name := "Bar", desc := { Valid := true, GrpcServiceDesc := ["barMethod"], GrpcGateway := [] } }

/-- A valid service with two method bindings. -/
def svcTwo : Service :=
  { name := "Two", desc := { Valid := true, GrpcServiceDesc := ["m0", "m1"], GrpcGateway := [] } }

/-- A succeeding gateway-binding function. -/
def gwFnOk : GatewayBindFn := { id := 7, err := none }

/-- A valid service carrying one gateway-binding function. -/
def svcGw : Service :=
  { name := "Gw",
    desc := { Valid := true, GrpcServiceDesc := ["gwMethod"], GrpcGateway := [gwFnOk] } }

/-- Server built with gateway disabled and no registrar. -/
def gs0 : GrpcServer :=
  newGrpcServer { Port := 50051, ProxyPort := 8080, ServerRegister := false,
                  EnableGrpcGateway := false }

/-- Server with registrar and gateway enabled, one registered service. -/
def gsGw : GrpcServer :=
  { newGrpcServer { Port := 50051, ProxyPort := 8080, ServerRegister := true,
                    EnableGrpcGateway := true } with
    serviceList := [svcFoo] }

/-- Server with registrar, gateway disabled, two one-binding services. -/
def gsPairReg : GrpcServer :=
  { newGrpcServer { Port := 50051, ProxyPort := 8080, ServerRegister := true,
                    EnableGrpcGateway := false } with
    serviceList := [svcFoo, svcBar] }

/-- Server with no registrar, gateway disabled, two one-binding services. -/
def gsPair : GrpcServer := { gs0 with serviceList := [svcFoo, svcBar] }

/-- Server with gateway disabled but a registered service carrying a
gateway-binding function. -/
def gsNoGw : GrpcServer := { gs0 with serviceList := [svcGw] }

/-- An environment in which every external collaborator succeeds. -/
def envOk : Env :=
  { dialOk := true, listenRpcOk := true, listenHttpOk := true,
    registerOk := fun _ => true, shutdownErr := none }

/-! ### Helper lemmas about the binding loop -/

theorem gatewayFnLoop_snd_none_iff (fns : List GatewayBindFn) :
    (gatewayFnLoop fns).2 = none ↔ ∀ f ∈ fns, f.err = none := by
  induction fns with
  | nil => simp [gatewayFnLoop]
  | cons f rest ih =>
    cases h : f.err with
    | some e => simp [gatewayFnLoop, h]
    | none => simpa [gatewayFnLoop, h] using ih

theorem bindLoopGo_snd_ne_fatal (l : List Service) (k : Nat)
    (hg : ∀ s ∈ l, ∀ f ∈ s.Description.GrpcGateway, f.err = none) :
    ∀ e, (bindLoopGo l k).2 ≠ some (BindFailure.fatal e) := by
  induction l generalizing k with
  | nil => simp [bindLoopGo]
  | cons s rest ih =>
    intro e
    have hs : (gatewayFnLoop s.Description.GrpcGateway).2 = none :=
      (gatewayFnLoop_snd_none_iff _).2 (hg s (by simp))
    cases hb : s.Description.GrpcServiceDesc[k]? with
    | none => simp [bindLoopGo, hb]
    | some b =>
      simp only [bindLoopGo, hb, hs]
      exact ih (k + 1) (fun x hx => hg x (by simp [hx])) e

theorem bindLoopGo_snd_none_iff (l : List Service) (k : Nat)
    (hg : ∀ s ∈ l, ∀ f ∈ s.Description.GrpcGateway, f.err = none) :
    (bindLoopGo l k).2 = none ↔
      ∀ j (s' : Service), l[j]? = some s' → k + j < s'.Description.GrpcServiceDesc.length := by
  induction l generalizing k with
  | nil => simp [bindLoopGo]
  | cons s rest ih =>
    have hs : (gatewayFnLoop s.Description.GrpcGateway).2 = none :=
      (gatewayFnLoop_snd_none_iff _).2 (hg s (by simp))
    have ih' := ih (k + 1) (fun x hx => hg x (by simp [hx]))
    cases hb : s.Description.GrpcServiceDesc[k]? with
    | none =>
      have hlen : s.Description.GrpcServiceDesc.length ≤ k :=
        List.getElem?_eq_none_iff.mp hb
      simp only [bindLoopGo, hb]
      constructor
      · intro h; exact absurd h (by simp)
      · intro h
        have h0 := h 0 s (by simp)
        omega
    | some b =>
      obtain ⟨hk, -⟩ := List.getElem?_eq_some.mp hb
      simp only [bindLoopGo, hb, hs]
      constructor
      · intro h j s' hj
        cases j with
        | zero =>
          have hj0 : s = s' := by simpa using hj
          subst hj0
          omega
        | succ j =>
          have := ih'.mp h j s' (by simpa using hj)
          omega
      · intro h
        refine ih'.mpr ?_
        intro j s' hj
        have := h (j + 1) s' (by simpa using hj)
        omega

/-! ### Claim C5 -/

/-- C5: `Register` rejects every invalid descriptor and every valid
descriptor with an empty method-binding list with a configuration error
(and, being pure, produces no modified server on failure, so the
registered-service list is unchanged); on a valid descriptor with a
non-empty method-binding list it appends exactly that service. -/
theorem register_validation (gs : GrpcServer) (srv : Service) :
    (srv.Description.Valid = false →
      Register gs srv = Except.error "invalid service description")
    ∧ (srv.Description.Valid = true → srv.Description.GrpcServiceDesc = [] →
      Register gs srv = Except.error "not invalid grpc service desc")
    ∧ (srv.Description.Valid = true → srv.Description.GrpcServiceDesc ≠ [] →
      Register gs srv = Except.ok { gs with serviceList := gs.serviceList ++ [srv] }) := by
  refine ⟨?_, ?_, ?_⟩
  · intro h; simp [Register, h]
  · intro h1 h2; simp [Register, h1, h2]
  · intro h1 h2
    simp [Register, h1, List.length_eq_zero, h2]

/-- Witness for `register_validation` at concrete services. -/
theorem register_validation_witness :
    Register gs0 svcInvalid = Except.error "invalid service description"
    ∧ Register gs0 svcEmpty = Except.error "not invalid grpc service desc"
    ∧ Register gs0 svcFoo = Except.ok { gs0 with serviceList := gs0.serviceList ++ [svcFoo] } :=
  ⟨(register_validation gs0 svcInvalid).1 rfl,
   (register_validation gs0 svcEmpty).2.1 rfl rfl,
   (register_validation gs0 svcFoo).2.2 rfl (by decide)⟩

/-! ### Claim C2 -/

/-- C2 counterexample: after `Run` has been invoked on a server (first
conjunct evaluates that invocation, which completes and leaves the server
state unchanged), `Register` of a valid service still succeeds and appends
it — it is not rejected with a phase error. -/
theorem register_after_run_counterexample :
    (RunExec envOk [] (registerAll gs0 [svcFoo])).completed = true
    ∧ Register (RunExec envOk [] (registerAll gs0 [svcFoo])).server svcBar =
        Except.ok
          { (RunExec envOk [] (registerAll gs0 [svcFoo])).server with
            serviceList :=
              (RunExec envOk [] (registerAll gs0 [svcFoo])).server.serviceList ++ [svcBar] } := by
  exact ⟨rfl, rfl⟩

/-- C2 amended: `Register` performs no phase check — even on the server
state left behind by a completed `Run` invocation, a valid service with a
non-empty method-binding list is appended and `Register` returns success,
exactly as before `Run`. -/
theorem register_after_run_no_phase_guard (env : Env) (sched : List Bool)
    (gs : GrpcServer) (srv : Service) (hv : srv.Description.Valid = true)
    (hne : srv.Description.GrpcServiceDesc ≠ []) :
    Register (RunExec env sched gs).server srv =
      Except.ok
        { (RunExec env sched gs).server with
          serviceList := (RunExec env sched gs).server.serviceList ++ [srv] } := by
  simp [Register, hv, List.length_eq_zero, hne]

/-- Witness for `register_after_run_no_phase_guard`. -/
theorem register_after_run_no_phase_guard_witness :
    Register (RunExec envOk [] gs0).server svcFoo =
      Except.ok
        { (RunExec envOk [] gs0).server with
          serviceList := (RunExec envOk [] gs0).server.serviceList ++ [svcFoo] } :=
  register_after_run_no_phase_guard envOk [] gs0 svcFoo rfl (by decide)

/-! ### Claim C1 -/

/-- C1: evaluation of the binding loop at its failing inputs.  For a single
service with two method bindings, the loop registers only the binding at
index 0 (the service's position) and never registers the second binding;
for two services with one binding each, the loop aborts with an
index-out-of-range access at index 1.  The code therefore does not bind
every method binding of every registered service. -/
theorem bind_loop_skips_bindings :
    (bindLoop { gs0 with serviceList := [svcTwo] }).1 = [Event.bindMethod 0 "m0"]
    ∧ (bindLoop { gs0 with serviceList := [svcTwo] }).1.countP
        (fun e => match e with
          | Event.bindMethod _ b => b == "m1"
          | _ => false) = 0
    ∧ (bindLoop gsPair).2 = some (BindFailure.outOfRange 1) := by
  exact ⟨rfl, rfl, rfl⟩

/-! ### Claim C10 -/

/-- C10: assuming the gateway-binding functions of the registered services
all succeed (so that the loop is not cut short by a `log.Fatal`), the
service-binding loop of `Run` is free of an index-out-of-range panic if
and only if every registered service's method-binding list is strictly
longer than the service's position in the registered-service list. -/
theorem bind_loop_index_safety (gs : GrpcServer)
    (hg : ∀ s ∈ gs.serviceList, ∀ f ∈ s.Description.GrpcGateway, f.err = none) :
    (∀ i, (bindLoop gs).2 ≠ some (BindFailure.outOfRange i)) ↔
      ∀ i (s' : Service), gs.serviceList[i]? = some s' →
        i < s'.Description.GrpcServiceDesc.length := by
  have hnf := bindLoopGo_snd_ne_fatal gs.serviceList 0 hg
  have hiff := bindLoopGo_snd_none_iff gs.serviceList 0 hg
  constructor
  · intro h
    have hnone : (bindLoop gs).2 = none := by
      cases hres : (bindLoop gs).2 with
      | none => rfl
      | some f =>
        cases f with
        | outOfRange i => exact absurd hres (h i)
        | fatal e => exact absurd hres (hnf e)
    intro i s' hi
    have := hiff.mp hnone i s' hi
    omega
  · intro h i
    have hnone : (bindLoop gs).2 = none := by
      refine hiff.mpr ?_
      intro j s' hj
      have := h j s' hj
      omega
    simp [bindLoop] at hnone ⊢
    simp [hnone]

/-- Witness for `bind_loop_index_safety`: for two one-binding services the
condition fails and the loop indeed panics. -/
theorem bind_loop_index_safety_witness :
    ((∀ i, (bindLoop gsPair).2 ≠ some (BindFailure.outOfRange i)) ↔
      ∀ i (s' : Service), gsPair.serviceList[i]? = some s' →
        i < s'.Description.GrpcServiceDesc.length) :=
  bind_loop_index_safety gsPair (by decide)

/-! ### Helper lemmas about interleavings and the registration loop -/

theorem mem_interleave {α : Type} (x : α) :
    ∀ (s : List Bool) (xs ys : List α), x ∈ interleave s xs ys ↔ x ∈ xs ∨ x ∈ ys := by
  intro s
  induction s with
  | nil => intro xs ys; simp [interleave]
  | cons b s ih =>
    intro xs ys
    cases b with
    | true =>
      cases xs with
      | nil => simp [interleave]
      | cons a xs2 =>
        simp only [interleave, List.mem_cons, ih]
        tauto
    | false =>
      cases ys with
      | nil => simp [interleave]
      | cons a ys2 =>
        simp only [interleave, List.mem_cons, ih]
        tauto

theorem countP_interleave {α : Type} (p : α → Bool) :
    ∀ (s : List Bool) (xs ys : List α),
      (interleave s xs ys).countP p = xs.countP p + ys.countP p := by
  intro s
  induction s with
  | nil => intro xs ys; simp [interleave, List.countP_append]
  | cons b s ih =>
    intro xs ys
    cases b with
    | true =>
      cases xs with
      | nil => simp [interleave]
      | cons a xs2 =>
        cases hpa : p a <;>
          simp only [interleave, List.countP_cons, ih, hpa] <;> omega
    | false =>
      cases ys with
      | nil => simp [interleave]
      | cons a ys2 =>
        cases hpa : p a <;>
          simp only [interleave, List.countP_cons, ih, hpa] <;> omega

theorem gatewayFnLoop_invokes (fns : List GatewayBindFn)
    (h : (gatewayFnLoop fns).2 = none) :
    ∀ f ∈ fns, Event.invokeGatewayBind f.id ∈ (gatewayFnLoop fns).1 := by
  induction fns with
  | nil => simp
  | cons f rest ih =>
    cases he : f.err with
    | some e => simp [gatewayFnLoop, he] at h
    | none =>
      simp only [gatewayFnLoop, he] at h ⊢
      intro g hg
      rcases List.mem_cons.mp hg with rfl | hg2
      · exact List.mem_cons_self _ _
      · exact List.mem_cons_of_mem _ (ih h g hg2)

theorem bindLoopGo_invokes (l : List Service) (k : Nat)
    (h : (bindLoopGo l k).2 = none) :
    ∀ s ∈ l, ∀ f ∈ s.Description.GrpcGateway,
      Event.invokeGatewayBind f.id ∈ (bindLoopGo l k).1 := by
  induction l generalizing k with
  | nil => simp
  | cons s rest ih =>
    cases hb : s.Description.GrpcServiceDesc[k]? with
    | none => simp [bindLoopGo, hb] at h
    | some b =>
      cases hg2 : (gatewayFnLoop s.Description.GrpcGateway).2 with
      | some e => simp [bindLoopGo, hb, hg2] at h
      | none =>
        simp only [bindLoopGo, hb, hg2] at h ⊢
        intro s' hs' f hf
        rcases List.mem_cons.mp hs' with rfl | hrest
        · have hm := gatewayFnLoop_invokes s'.Description.GrpcGateway hg2 f hf
          simp only [List.mem_cons, List.mem_append]
          tauto
        · have hm := ih (k + 1) h s' hrest f hf
          simp only [List.mem_cons, List.mem_append]
          tauto

theorem registerLoop_allOk (rOk : Node → Bool) (mk : Service → Node)
    (l : List Service) (h : ∀ s ∈ l, rOk (mk s) = true) :
    registerLoop rOk mk l = (l.map (fun s => Event.registerNode (mk s)), none) := by
  induction l with
  | nil => simp [registerLoop]
  | cons s rest ih =>
    simp [registerLoop, h s (by simp), ih (fun x hx => h x (by simp [hx]))]

theorem registerLoop_mem (rOk : Node → Bool) (mk : Service → Node)
    (l : List Service) (n : Node)
    (h : Event.registerNode n ∈ (registerLoop rOk mk l).1) :
    ∃ s ∈ l, n = mk s := by
  induction l with
  | nil => simp [registerLoop] at h
  | cons s rest ih =>
    by_cases hok : rOk (mk s) = true
    · simp only [registerLoop, if_pos hok, List.mem_cons, Event.registerNode.injEq] at h
      rcases h with h | h
      · exact ⟨s, by simp, h⟩
      · obtain ⟨t, ht, rfl⟩ := ih h
        exact ⟨t, by simp [ht], rfl⟩
    · simp only [registerLoop, if_neg hok, List.mem_cons, List.not_mem_nil,
        Event.registerNode.injEq, or_false, List.mem_singleton] at h
      exact ⟨s, by simp, h⟩

/-! ### Claim C3 -/

/-- C3 counterexample: on a server with the gateway disabled and one
registered service carrying a gateway-binding function, `Run` still dials
the loopback connection (its first action) and still invokes the
gateway-binding function. -/
theorem gateway_disabled_counterexample :
    gsNoGw.enableGateway = false
    ∧ (RunExec envOk [] gsNoGw).trace.head? = some (Event.dialLoopback 50051)
    ∧ Event.invokeGatewayBind 7 ∈ (RunExec envOk [] gsNoGw).trace := by
  refine ⟨rfl, rfl, ?_⟩
  decide

/-- C3 amended: `Run` always dials the loopback connection as its first
action regardless of the gateway-enabled flag, and (whenever the dial
succeeds and the service-binding loop completes) invokes every registered
service's gateway-binding functions, again regardless of the flag. -/
theorem run_always_dials_and_invokes_gateway (env : Env) (sched : List Bool)
    (gs : GrpcServer) (hd : env.dialOk = true) (hb : (bindLoop gs).2 = none) :
    (RunExec env sched gs).trace.head? = some (Event.dialLoopback gs.port)
    ∧ ∀ s ∈ gs.serviceList, ∀ f ∈ s.Description.GrpcGateway,
        Event.invokeGatewayBind f.id ∈ (RunExec env sched gs).trace := by
  constructor
  · simp [RunExec, hd, hb]
  · intro s hs f hf
    have hmem : Event.invokeGatewayBind f.id ∈ (bindLoop gs).1 :=
      bindLoopGo_invokes gs.serviceList 0 hb s hs f hf
    simp only [RunExec, hd, Bool.not_true, Bool.false_eq_true, if_false, hb]
    simp only [List.mem_cons, List.mem_append]
    tauto

/-- Witness for `run_always_dials_and_invokes_gateway`: the concrete
gateway-binding function of `svcGw` is invoked although `gsNoGw` has the
gateway disabled. -/
theorem run_always_dials_and_invokes_gateway_witness :
    Event.invokeGatewayBind 7 ∈ (RunExec envOk [] gsNoGw).trace :=
  (run_always_dials_and_invokes_gateway envOk [] gsNoGw rfl (by decide)).2
    svcGw (by decide) gwFnOk (by decide)

/-! ### Claim C4 -/

/-- C4 counterexample: in the gateway unit's trace, the HTTP discovery
node for `svcFoo` is submitted as the very first action, strictly before
`ListenAndServe` binds the proxy socket — not after it. -/
theorem http_registration_before_bind_counterexample :
    (runGatewayU envOk gsGw).1.take 1 =
      [Event.registerNode (NewNode "" 8080 Protocol.HTTP svcFoo)]
    ∧ Event.listenHttp 8080 ∈ (runGatewayU envOk gsGw).1.drop 1 := by
  exact ⟨rfl, by decide⟩

/-- C4 amended: for the binary transport, node submission does happen
strictly after the listener binds (the bind event heads the unit's trace
and all submissions follow it); for the HTTP gateway, however, all node
submissions happen strictly before `ListenAndServe` binds the proxy
socket. -/
theorem discovery_registration_order (env : Env) (gs : GrpcServer)
    (hok : ∀ n, env.registerOk n = true) (hr : gs.register = true)
    (hgw : gs.gSrvGateway = true) (hl : env.listenHttpOk = true) :
    (∀ n : Node, Event.registerNode n ∈ (runU env gs).1 →
        (runU env gs).1.head? = some (Event.listenRpc gs.port)
        ∧ Event.registerNode n ∈ (runU env gs).1.tail)
    ∧ ∃ rest,
        (runGatewayU env gs).1 =
          (gs.serviceList.map
              (fun s => Event.registerNode (NewNode gs.host gs.proxyPort Protocol.HTTP s)))
            ++ Event.listenHttp gs.proxyPort :: rest
          ∧ ∀ n : Node, Event.registerNode n ∉ rest := by
  constructor
  · intro n hmem
    by_cases hrl : env.listenRpcOk = true
    · cases hreg : (if gs.register then
          registerLoop env.registerOk (fun s => NewNode gs.host gs.port Protocol.GRPC s)
            gs.serviceList
        else ([], none)).2 with
      | some e =>
        simp only [runU, hrl, Bool.not_true, Bool.false_eq_true, if_false, hreg] at hmem ⊢
        rcases List.mem_cons.mp hmem with h | h
        · exact absurd h (by simp)
        · exact ⟨rfl, h⟩
      | none =>
        simp only [runU, hrl, Bool.not_true, Bool.false_eq_true, if_false, hreg] at hmem ⊢
        rcases List.mem_cons.mp hmem with h | h
        · exact absurd h (by simp)
        · exact ⟨rfl, h⟩
    · simp only [runU, Bool.not_eq_true] at hmem ⊢
      rw [if_pos (by simpa using hrl)] at hmem
      simp at hmem
  · have hreg := registerLoop_allOk env.registerOk
      (fun s => NewNode gs.host gs.proxyPort Protocol.HTTP s) gs.serviceList
      (fun s _ => hok _)
    refine ⟨Event.serveHttp ::
      (match env.shutdownErr with
        | some e => [Event.logError e]
        | none => []), ?_, ?_⟩
    · simp [runGatewayU, hgw, hr, hreg, hl]
    · intro n
      cases hse : env.shutdownErr <;> simp

/-- Witness for `discovery_registration_order` at the concrete gateway
server `gsGw`. -/
theorem discovery_registration_order_witness :
    (∀ n : Node, Event.registerNode n ∈ (runU envOk gsGw).1 →
        (runU envOk gsGw).1.head? = some (Event.listenRpc gsGw.port)
        ∧ Event.registerNode n ∈ (runU envOk gsGw).1.tail)
    ∧ ∃ rest,
        (runGatewayU envOk gsGw).1 =
          (gsGw.serviceList.map
              (fun s => Event.registerNode (NewNode gsGw.host gsGw.proxyPort Protocol.HTTP s)))
            ++ Event.listenHttp gsGw.proxyPort :: rest
          ∧ ∀ n : Node, Event.registerNode n ∉ rest :=
  discovery_registration_order envOk gsGw (fun _ => rfl) rfl rfl rfl

/-! ### Counting helper lemmas -/

theorem countNodes_append (p : Protocol) (xs ys : List Event) :
    countNodes p (xs ++ ys) = countNodes p xs + countNodes p ys := by
  simp [countNodes, List.countP_append]

theorem countNodes_interleave (p : Protocol) (s : List Bool) (xs ys : List Event) :
    countNodes p (interleave s xs ys) = countNodes p xs + countNodes p ys :=
  countP_interleave _ s xs ys

theorem countNodes_cons_of_ne (p : Protocol) (e : Event) (l : List Event)
    (h : ∀ n : Node, e ≠ Event.registerNode n) :
    countNodes p (e :: l) = countNodes p l := by
  cases e with
  | registerNode n => exact absurd rfl (h n)
  | _ => simp [countNodes, List.countP_cons]

theorem countNodes_nil (p : Protocol) : countNodes p [] = 0 := rfl

theorem countNodes_cons (p : Protocol) (e : Event) (l : List Event) :
    countNodes p (e :: l) = countNodes p l +
      (match e with
        | Event.registerNode n => if n.protocol == p then 1 else 0
        | _ => 0) := by
  cases e <;> simp [countNodes, List.countP_cons]

theorem countNodes_map_eq (p : Protocol) (host : String) (port : Nat)
    (l : List Service) :
    countNodes p (l.map (fun s => Event.registerNode (NewNode host port p s)))
      = l.length := by
  induction l with
  | nil => rfl
  | cons s rest ih =>
    rw [List.map_cons, countNodes_cons, ih]
    simp [NewNode]

theorem countNodes_map_ne (p q : Protocol) (host : String) (port : Nat)
    (l : List Service) (h : q ≠ p) :
    countNodes p (l.map (fun s => Event.registerNode (NewNode host port q s)))
      = 0 := by
  induction l with
  | nil => rfl
  | cons s rest ih =>
    rw [List.map_cons, countNodes_cons, ih]
    simp [NewNode, h]

theorem gatewayFnLoop_no_registerNode (fns : List GatewayBindFn) (n : Node) :
    Event.registerNode n ∉ (gatewayFnLoop fns).1 := by
  induction fns with
  | nil => simp [gatewayFnLoop]
  | cons f rest ih =>
    cases he : f.err with
    | some e => simp [gatewayFnLoop, he]
    | none => simp [gatewayFnLoop, he, ih]

theorem bindLoopGo_no_registerNode (l : List Service) (k : Nat) (n : Node) :
    Event.registerNode n ∉ (bindLoopGo l k).1 := by
  induction l generalizing k with
  | nil => simp [bindLoopGo]
  | cons s rest ih =>
    cases hb : s.Description.GrpcServiceDesc[k]? with
    | none => simp [bindLoopGo, hb]
    | some b =>
      cases hg2 : (gatewayFnLoop s.Description.GrpcGateway).2 with
      | some e => simp [bindLoopGo, hb, hg2, gatewayFnLoop_no_registerNode]
      | none => simp [bindLoopGo, hb, hg2, gatewayFnLoop_no_registerNode, ih]

theorem bindLoop_no_registerNode (gs : GrpcServer) (n : Node) :
    Event.registerNode n ∉ (bindLoop gs).1 :=
  bindLoopGo_no_registerNode gs.serviceList 0 n

theorem countNodes_no_reg (p : Protocol) (evs : List Event)
    (h : ∀ n : Node, Event.registerNode n ∉ evs) : countNodes p evs = 0 := by
  induction evs with
  | nil => rfl
  | cons e rest ih =>
    have hrest := ih (fun n hn => h n (List.mem_cons_of_mem _ hn))
    cases e with
    | registerNode n => exact absurd (List.mem_cons_self _ _) (h n)
    | _ => simpa [countNodes_cons] using hrest

theorem reg_not_mem_ite_unitDone (n : Node) (c : Prop) [Decidable c] (u : UnitKind) :
    Event.registerNode n ∉ (if c then [Event.unitDone u] else []) := by
  split <;> simp

theorem reg_not_mem_ite_runReturn (n : Node) (c : Prop) [Decidable c] :
    Event.registerNode n ∉ (if c then [] else [Event.runReturn]) := by
  split <;> simp

/-- Any node submitted by the binary-serve unit is the GRPC node of one of
the registered services, built from the server's host and binary port. -/
theorem runU_reg_mem (env : Env) (gs : GrpcServer) (n : Node)
    (hmem : Event.registerNode n ∈ (runU env gs).1) :
    ∃ s ∈ gs.serviceList, n = NewNode gs.host gs.port Protocol.GRPC s := by
  by_cases hrl : env.listenRpcOk = true
  · by_cases hr : gs.register = true
    · cases hreg : (registerLoop env.registerOk
          (fun s => NewNode gs.host gs.port Protocol.GRPC s) gs.serviceList).2 with
      | some e =>
        simp [runU, hrl, hr, hreg] at hmem
        exact registerLoop_mem _ _ _ _ hmem
      | none =>
        simp [runU, hrl, hr, hreg] at hmem
        exact registerLoop_mem _ _ _ _ hmem
    · simp [runU, hrl, hr, registerLoop] at hmem
  · simp [runU, hrl] at hmem

/-- Any node submitted by the gateway-serve unit is the HTTP node of one
of the registered services, built from the server's host and proxy port. -/
theorem runGatewayU_reg_mem (env : Env) (gs : GrpcServer) (n : Node)
    (hmem : Event.registerNode n ∈ (runGatewayU env gs).1) :
    ∃ s ∈ gs.serviceList, n = NewNode gs.host gs.proxyPort Protocol.HTTP s := by
  by_cases hgw : gs.gSrvGateway = true
  · by_cases hr : gs.register = true
    · cases hreg : (registerLoop env.registerOk
          (fun s => NewNode gs.host gs.proxyPort Protocol.HTTP s) gs.serviceList).2 with
      | some e =>
        simp [runGatewayU, hgw, hr, hreg] at hmem
        exact registerLoop_mem _ _ _ _ hmem
      | none =>
        by_cases hlh : env.listenHttpOk = true
        · cases hse : env.shutdownErr with
          | none =>
            simp [runGatewayU, hgw, hr, hreg, hlh, hse] at hmem
            exact registerLoop_mem _ _ _ _ hmem
          | some e2 =>
            simp [runGatewayU, hgw, hr, hreg, hlh, hse] at hmem
            exact registerLoop_mem _ _ _ _ hmem
        · simp [runGatewayU, hgw, hr, hreg, hlh] at hmem
          exact registerLoop_mem _ _ _ _ hmem
    · by_cases hlh : env.listenHttpOk = true
      · cases hse : env.shutdownErr with
        | none => simp [runGatewayU, hgw, hr, hlh, hse] at hmem
        | some e2 => simp [runGatewayU, hgw, hr, hlh, hse] at hmem
      · simp [runGatewayU, hgw, hr, hlh] at hmem
  · simp [runGatewayU, hgw] at hmem

/-- Any node submitted anywhere during `Run` is the GRPC or the HTTP node
of one of the registered services. -/
theorem runExec_reg_mem (env : Env) (sched : List Bool) (gs : GrpcServer) (n : Node)
    (hmem : Event.registerNode n ∈ (RunExec env sched gs).trace) :
    ∃ s ∈ gs.serviceList,
      n = NewNode gs.host gs.port Protocol.GRPC s
      ∨ n = NewNode gs.host gs.proxyPort Protocol.HTTP s := by
  by_cases hd : env.dialOk = true
  · cases hbf : (bindLoop gs).2 with
    | some f =>
      simp [RunExec, hd, hbf, bindLoop_no_registerNode] at hmem
    | none =>
      cases hen : gs.enableGateway with
      | false =>
        simp [RunExec, hd, hbf, hen, mem_interleave,
          bindLoop_no_registerNode, reg_not_mem_ite_unitDone,
          reg_not_mem_ite_runReturn] at hmem
        obtain ⟨s, hs, rfl⟩ := runU_reg_mem env gs n hmem
        exact ⟨s, hs, Or.inl rfl⟩
      | true =>
        simp [RunExec, hd, hbf, hen, mem_interleave,
          bindLoop_no_registerNode, reg_not_mem_ite_unitDone,
          reg_not_mem_ite_runReturn] at hmem
        rcases hmem with h | h
        · obtain ⟨s, hs, rfl⟩ := runGatewayU_reg_mem env gs n h
          exact ⟨s, hs, Or.inr rfl⟩
        · obtain ⟨s, hs, rfl⟩ := runU_reg_mem env gs n h
          exact ⟨s, hs, Or.inl rfl⟩
  · simp [RunExec, hd] at hmem

/-! ### Claim C6 -/

/-- C6 counterexample: two validly registered one-binding services with a
registrar configured and the gateway disabled — `Run` dies in the
service-binding loop (out-of-range access) before either serving unit
starts, so zero RPC nodes are submitted instead of the claimed two. -/
theorem node_count_counterexample :
    gsPairReg.serviceList.length = 2
    ∧ (RunExec envOk [] gsPairReg).completed = false
    ∧ countNodes Protocol.GRPC (RunExec envOk [] gsPairReg).trace = 0 := by
  exact ⟨rfl, rfl, rfl⟩

/-- C6 amended: provided the external collaborators succeed and `Run`'s
service-binding loop completes (in particular, every registered service's
method-binding list is longer than the service's position, and no
gateway-binding function fails), `Run` with a registrar configured
submits exactly N RPC nodes for the N registered services, plus exactly N
HTTP nodes when the gateway is enabled and zero when it is disabled, with
every HTTP node paired to an RPC node of the same service identity;
moreover every submitted RPC node carries the binary port and every
submitted HTTP node carries the proxy port. -/
theorem node_counts (env : Env) (sched : List Bool) (gs : GrpcServer)
    (hd : env.dialOk = true) (hrl : env.listenRpcOk = true)
    (hlh : env.listenHttpOk = true) (hok : ∀ n, env.registerOk n = true)
    (hr : gs.register = true) (hgw : gs.gSrvGateway = gs.enableGateway)
    (hb : (bindLoop gs).2 = none) :
    countNodes Protocol.GRPC (RunExec env sched gs).trace = gs.serviceList.length
    ∧ countNodes Protocol.HTTP (RunExec env sched gs).trace =
        (if gs.enableGateway then gs.serviceList.length else 0)
    ∧ (∀ n : Node, Event.registerNode n ∈ (RunExec env sched gs).trace →
        n.protocol = Protocol.HTTP →
        ∃ m : Node, Event.registerNode m ∈ (RunExec env sched gs).trace
          ∧ m.protocol = Protocol.GRPC ∧ m.serviceName = n.serviceName)
    ∧ ∀ n : Node, Event.registerNode n ∈ (RunExec env sched gs).trace →
        (n.protocol = Protocol.GRPC → n.port = gs.port)
        ∧ (n.protocol = Protocol.HTTP → n.port = gs.proxyPort) := by
  have hports : ∀ n : Node, Event.registerNode n ∈ (RunExec env sched gs).trace →
      (n.protocol = Protocol.GRPC → n.port = gs.port)
      ∧ (n.protocol = Protocol.HTTP → n.port = gs.proxyPort) := by
    intro n hmem
    obtain ⟨s, hs, hcase⟩ := runExec_reg_mem env sched gs n hmem
    rcases hcase with rfl | rfl
    · exact ⟨fun _ => rfl, fun h => by simp [NewNode] at h⟩
    · exact ⟨fun h => by simp [NewNode] at h, fun _ => rfl⟩
  have hregG := registerLoop_allOk env.registerOk
    (fun s => NewNode gs.host gs.port Protocol.GRPC s) gs.serviceList (fun s _ => hok _)
  have hrunU : runU env gs =
      (Event.listenRpc gs.port ::
        (gs.serviceList.map
          (fun s => Event.registerNode (NewNode gs.host gs.port Protocol.GRPC s)))
        ++ [Event.serveRpc], none) := by
    simp [runU, hrl, hr, hregG]
  have hbindG : countNodes Protocol.GRPC (bindLoop gs).1 = 0 :=
    countNodes_no_reg _ _ (fun n => bindLoopGo_no_registerNode gs.serviceList 0 n)
  have hbindH : countNodes Protocol.HTTP (bindLoop gs).1 = 0 :=
    countNodes_no_reg _ _ (fun n => bindLoopGo_no_registerNode gs.serviceList 0 n)
  cases hen : gs.enableGateway with
  | false =>
    have hTrace : (RunExec env sched gs).trace =
        Event.dialLoopback gs.port :: (bindLoop gs).1 ++
          interleave sched []
            ((Event.listenRpc gs.port ::
              (gs.serviceList.map
                (fun s => Event.registerNode (NewNode gs.host gs.port Protocol.GRPC s)))
              ++ [Event.serveRpc]) ++ [Event.unitDone UnitKind.rpc]) ++
          [Event.runReturn] := by
      simp [RunExec, hd, hb, hen, hrunU]
    have hmemG : ∀ s ∈ gs.serviceList,
        Event.registerNode (NewNode gs.host gs.port Protocol.GRPC s) ∈
          (RunExec env sched gs).trace := by
      intro s hs
      rw [hTrace]
      refine List.mem_cons_of_mem _ ?_
      refine List.mem_append_left _ ?_
      refine List.mem_append_right _ ?_
      refine (mem_interleave _ sched _ _).mpr (Or.inr ?_)
      refine List.mem_append_left _ ?_
      refine List.mem_cons_of_mem _ ?_
      refine List.mem_append_left _ ?_
      exact List.mem_map_of_mem _ hs
    refine ⟨?_, ?_, ?_, hports⟩
    · rw [hTrace]
      simp only [countNodes_cons, countNodes_append, countNodes_interleave,
        countNodes_nil, countNodes_map_eq, hbindG]
      simp
    · rw [hTrace]
      simp only [countNodes_cons, countNodes_append, countNodes_interleave,
        countNodes_nil, hbindH,
        countNodes_map_ne Protocol.HTTP Protocol.GRPC gs.host gs.port
          gs.serviceList (by simp)]
      simp
    · intro n hmem hproto
      obtain ⟨s, hs, hcase⟩ := runExec_reg_mem env sched gs n hmem
      rcases hcase with rfl | rfl
      · simp [NewNode] at hproto
      · exact ⟨NewNode gs.host gs.port Protocol.GRPC s, hmemG s hs, rfl, rfl⟩
  | true =>
    have hgw' : gs.gSrvGateway = true := by rw [hgw, hen]
    have hregH := registerLoop_allOk env.registerOk
      (fun s => NewNode gs.host gs.proxyPort Protocol.HTTP s) gs.serviceList
      (fun s _ => hok _)
    have hshut : ∃ shut : List Event,
        runGatewayU env gs =
          ((gs.serviceList.map
              (fun s => Event.registerNode (NewNode gs.host gs.proxyPort Protocol.HTTP s)))
            ++ [Event.listenHttp gs.proxyPort, Event.serveHttp] ++ shut, none)
          ∧ countNodes Protocol.GRPC shut = 0 ∧ countNodes Protocol.HTTP shut = 0 := by
      cases hse : env.shutdownErr with
      | none =>
        refine ⟨[], ?_, rfl, rfl⟩
        simp [runGatewayU, hgw', hr, hregH, hlh, hse]
      | some es =>
        refine ⟨[Event.logError es], ?_, rfl, rfl⟩
        simp [runGatewayU, hgw', hr, hregH, hlh, hse]
    obtain ⟨shut, hrunGw, hshutG, hshutH⟩ := hshut
    have hTrace : (RunExec env sched gs).trace =
        Event.dialLoopback gs.port :: (bindLoop gs).1 ++
          interleave sched
            (((gs.serviceList.map
                (fun s => Event.registerNode (NewNode gs.host gs.proxyPort Protocol.HTTP s)))
              ++ [Event.listenHttp gs.proxyPort, Event.serveHttp] ++ shut) ++
              [Event.unitDone UnitKind.gateway])
            ((Event.listenRpc gs.port ::
              (gs.serviceList.map
                (fun s => Event.registerNode (NewNode gs.host gs.port Protocol.GRPC s)))
              ++ [Event.serveRpc]) ++ [Event.unitDone UnitKind.rpc]) ++
          [Event.runReturn] := by
      simp [RunExec, hd, hb, hen, hrunU, hrunGw]
    have hmemG : ∀ s ∈ gs.serviceList,
        Event.registerNode (NewNode gs.host gs.port Protocol.GRPC s) ∈
          (RunExec env sched gs).trace := by
      intro s hs
      rw [hTrace]
      refine List.mem_cons_of_mem _ ?_
      refine List.mem_append_left _ ?_
      refine List.mem_append_right _ ?_
      refine (mem_interleave _ sched _ _).mpr (Or.inr ?_)
      refine List.mem_append_left _ ?_
      refine List.mem_cons_of_mem _ ?_
      refine List.mem_append_left _ ?_
      exact List.mem_map_of_mem _ hs
    refine ⟨?_, ?_, ?_, hports⟩
    · rw [hTrace]
      simp only [countNodes_cons, countNodes_append, countNodes_interleave,
        countNodes_nil, countNodes_map_eq, hbindG, hshutG,
        countNodes_map_ne Protocol.GRPC Protocol.HTTP gs.host gs.proxyPort
          gs.serviceList (by simp)]
      simp
    · rw [hTrace]
      simp only [countNodes_cons, countNodes_append, countNodes_interleave,
        countNodes_nil, countNodes_map_eq, hbindH, hshutH,
        countNodes_map_ne Protocol.HTTP Protocol.GRPC gs.host gs.port
          gs.serviceList (by simp)]
      simp
    · intro n hmem hproto
      obtain ⟨s, hs, hcase⟩ := runExec_reg_mem env sched gs n hmem
      rcases hcase with rfl | rfl
      · simp [NewNode] at hproto
      · exact ⟨NewNode gs.host gs.port Protocol.GRPC s, hmemG s hs, rfl, rfl⟩

/-- Witness for `node_counts` at the gateway-enabled one-service server. -/
theorem node_counts_witness :
    countNodes Protocol.GRPC (RunExec envOk [] gsGw).trace = gsGw.serviceList.length
    ∧ countNodes Protocol.HTTP (RunExec envOk [] gsGw).trace =
        (if gsGw.enableGateway then gsGw.serviceList.length else 0)
    ∧ (∀ n : Node, Event.registerNode n ∈ (RunExec envOk [] gsGw).trace →
        n.protocol = Protocol.HTTP →
        ∃ m : Node, Event.registerNode m ∈ (RunExec envOk [] gsGw).trace
          ∧ m.protocol = Protocol.GRPC ∧ m.serviceName = n.serviceName)
    ∧ ∀ n : Node, Event.registerNode n ∈ (RunExec envOk [] gsGw).trace →
        (n.protocol = Protocol.GRPC → n.port = gsGw.port)
        ∧ (n.protocol = Protocol.HTTP → n.port = gsGw.proxyPort) :=
  node_counts envOk [] gsGw rfl rfl rfl (fun _ => rfl) rfl rfl (by decide)

/-! ### Claim C8 -/

/-- An environment where every collaborator succeeds except the http
shutdown, which fails. -/
def envShut : Env := { envOk with shutdownErr := some "shutdown failed" }

/-- C8: when the startup steps succeed, `Run`'s trace ends with the
`runReturn` event and both units' completion events lie strictly before
it — `Run` returns only after the binary unit (and, when the gateway is
enabled, the gateway unit) has fully terminated, under every scheduler
interleaving.  A failing http `Shutdown` is logged (`logError` appears in
the trace) but `Run` still completes and returns. -/
theorem run_joins_both_units (env : Env) (sched : List Bool) (gs : GrpcServer)
    (hd : env.dialOk = true) (hrl : env.listenRpcOk = true)
    (hlh : env.listenHttpOk = true) (hok : ∀ n, env.registerOk n = true)
    (hr : gs.register = true) (hgw : gs.gSrvGateway = gs.enableGateway)
    (hb : (bindLoop gs).2 = none) :
    ∃ body,
      (RunExec env sched gs).trace = body ++ [Event.runReturn]
      ∧ (RunExec env sched gs).completed = true
      ∧ Event.unitDone UnitKind.rpc ∈ body
      ∧ (gs.enableGateway = true → Event.unitDone UnitKind.gateway ∈ body)
      ∧ (∀ e, env.shutdownErr = some e → gs.enableGateway = true →
          Event.logError e ∈ body) := by
  have hregG := registerLoop_allOk env.registerOk
    (fun s => NewNode gs.host gs.port Protocol.GRPC s) gs.serviceList (fun s _ => hok _)
  have hrunU : runU env gs =
      (Event.listenRpc gs.port ::
        (gs.serviceList.map
          (fun s => Event.registerNode (NewNode gs.host gs.port Protocol.GRPC s)))
        ++ [Event.serveRpc], none) := by
    simp [runU, hrl, hr, hregG]
  cases hen : gs.enableGateway with
  | false =>
    refine ⟨Event.dialLoopback gs.port :: (bindLoop gs).1 ++
        interleave sched []
          ((Event.listenRpc gs.port ::
            (gs.serviceList.map
              (fun s => Event.registerNode (NewNode gs.host gs.port Protocol.GRPC s)))
            ++ [Event.serveRpc]) ++ [Event.unitDone UnitKind.rpc]),
      ?_, ?_, ?_, ?_, ?_⟩
    · simp [RunExec, hd, hb, hen, hrunU]
    · simp [RunExec, hd, hb, hen, hrunU]
    · refine List.mem_cons_of_mem _ ?_
      refine List.mem_append_right _ ?_
      refine (mem_interleave _ sched _ _).mpr (Or.inr ?_)
      exact List.mem_append_right _ (List.mem_singleton_self _)
    · intro h
      simp at h
    · intro e _ h
      simp at h
  | true =>
    have hgw' : gs.gSrvGateway = true := by rw [hgw, hen]
    have hregH := registerLoop_allOk env.registerOk
      (fun s => NewNode gs.host gs.proxyPort Protocol.HTTP s) gs.serviceList
      (fun s _ => hok _)
    have hshut : ∃ shut : List Event,
        runGatewayU env gs =
          ((gs.serviceList.map
              (fun s => Event.registerNode (NewNode gs.host gs.proxyPort Protocol.HTTP s)))
            ++ [Event.listenHttp gs.proxyPort, Event.serveHttp] ++ shut, none)
          ∧ (∀ e, env.shutdownErr = some e → Event.logError e ∈ shut) := by
      cases hse : env.shutdownErr with
      | none =>
        refine ⟨[], ?_, ?_⟩
        · simp [runGatewayU, hgw', hr, hregH, hlh, hse]
        · intro e he
          cases he
      | some es =>
        refine ⟨[Event.logError es], ?_, ?_⟩
        · simp [runGatewayU, hgw', hr, hregH, hlh, hse]
        · intro e he
          injection he with h2
          rw [← h2]
          exact List.mem_singleton_self _
    obtain ⟨shut, hrunGw, hshutlog⟩ := hshut
    refine ⟨Event.dialLoopback gs.port :: (bindLoop gs).1 ++
        interleave sched
          ((((gs.serviceList.map
              (fun s => Event.registerNode (NewNode gs.host gs.proxyPort Protocol.HTTP s)))
            ++ [Event.listenHttp gs.proxyPort, Event.serveHttp] ++ shut) ++
            [Event.unitDone UnitKind.gateway]))
          ((Event.listenRpc gs.port ::
            (gs.serviceList.map
              (fun s => Event.registerNode (NewNode gs.host gs.port Protocol.GRPC s)))
            ++ [Event.serveRpc]) ++ [Event.unitDone UnitKind.rpc]),
      ?_, ?_, ?_, ?_, ?_⟩
    · simp [RunExec, hd, hb, hen, hrunU, hrunGw]
    · simp [RunExec, hd, hb, hen, hrunU, hrunGw]
    · refine List.mem_cons_of_mem _ ?_
      refine List.mem_append_right _ ?_
      refine (mem_interleave _ sched _ _).mpr (Or.inr ?_)
      exact List.mem_append_right _ (List.mem_singleton_self _)
    · intro _
      refine List.mem_cons_of_mem _ ?_
      refine List.mem_append_right _ ?_
      refine (mem_interleave _ sched _ _).mpr (Or.inl ?_)
      exact List.mem_append_right _ (List.mem_singleton_self _)
    · intro e he _
      have hs := hshutlog e he
      refine List.mem_cons_of_mem _ ?_
      refine List.mem_append_right _ ?_
      refine (mem_interleave _ sched _ _).mpr (Or.inl ?_)
      refine List.mem_append_left _ ?_
      exact List.mem_append_right _ hs

/-- Witness for `run_joins_both_units` with a failing http shutdown. -/
theorem run_joins_both_units_witness :
    ∃ body,
      (RunExec envShut [] gsGw).trace = body ++ [Event.runReturn]
      ∧ (RunExec envShut [] gsGw).completed = true
      ∧ Event.unitDone UnitKind.rpc ∈ body
      ∧ (gsGw.enableGateway = true → Event.unitDone UnitKind.gateway ∈ body)
      ∧ (∀ e, envShut.shutdownErr = some e → gsGw.enableGateway = true →
          Event.logError e ∈ body) :=
  run_joins_both_units envShut [] gsGw rfl rfl rfl (fun _ => rfl) rfl rfl (by decide)

/-! ### Claim C9 -/

theorem register_ok_host (gs : GrpcServer) (srv : Service) (gs2 : GrpcServer)
    (h : Register gs srv = Except.ok gs2) : gs2.host = gs.host := by
  by_cases hv : srv.Description.Valid = true
  · by_cases hl : srv.Description.GrpcServiceDesc.length = 0
    · simp [Register, hv, hl] at h
    · simp [Register, hv, hl] at h
      rw [← h]
  · simp [Register, hv] at h

theorem registerAll_host (l : List Service) :
    ∀ gs : GrpcServer, (registerAll gs l).host = gs.host := by
  induction l with
  | nil => intro gs; rfl
  | cons s rest ih =>
    intro gs
    cases hr : Register gs s with
    | ok gs2 =>
      simp only [registerAll, hr]
      rw [ih gs2, register_ok_host gs s gs2 hr]
    | error e =>
      simp only [registerAll, hr]
      exact ih gs

/-- C9: `findListenOn` always returns the empty string, and consequently
every discovery node submitted during a `Run` of a server built by
`newGrpcServer` (with any sequence of `Register` calls) advertises an
empty host. -/
theorem nodes_empty_host (opt : ServerOption) (svcs : List Service) (env : Env)
    (sched : List Bool) :
    (∀ gs : GrpcServer, gs.findListenOn = "")
    ∧ ∀ n : Node,
        Event.registerNode n ∈
          (RunExec env sched (registerAll (newGrpcServer opt) svcs)).trace →
        n.host = "" := by
  refine ⟨fun _ => rfl, ?_⟩
  intro n hmem
  obtain ⟨s, hs, hcase⟩ :=
    runExec_reg_mem env sched (registerAll (newGrpcServer opt) svcs) n hmem
  have hh : (registerAll (newGrpcServer opt) svcs).host = "" := by
    rw [registerAll_host svcs (newGrpcServer opt)]
    rfl
  rcases hcase with rfl | rfl <;> simp [NewNode, hh]

/-- Option with a registrar configured and the gateway disabled. -/
def optReg : ServerOption :=
  { Port := 50051, ProxyPort := 8080, ServerRegister := true,
    EnableGrpcGateway := false }

/-- Witness for `nodes_empty_host`: the concrete GRPC node submitted for
`svcFoo` carries the empty host. -/
theorem nodes_empty_host_witness :
    (NewNode "" 50051 Protocol.GRPC svcFoo).host = "" :=
  (nodes_empty_host optReg [svcFoo] envOk []).2 (NewNode "" 50051 Protocol.GRPC svcFoo)
    (by decide)

/-! ### Claim C7: gateway panic recovery -/

/-- An HTTP request reaching the gateway's handler chain. -/
structure HttpRequest where
  path : String
  deriving DecidableEq

/-- What one inner-handler invocation does with a request: either write a
complete response or panic; a panic value is carried as its
`fmt.Sprintf "%v"` rendering, which is exactly what `recoverMiddleware`
writes into the body. -/
inductive HandlerOutcome where
  | response (status : Nat) (body : String)
  | panicked (val : String)
  deriving DecidableEq

/-- A finished HTTP response: status code and body. -/
structure HttpResponse where
  status : Nat
  body : String
  deriving DecidableEq

/-- An HTTP handler as the gateway middleware sees it. -/
def HttpHandler : Type := HttpRequest → HandlerOutcome

/-- `recoverMiddleware` (grpc_server.go:86-96): runs the inner handler
and, if it panics, recovers and writes status 500
(`http.StatusInternalServerError`) with the panic value's string
representation as the body. -/
def recoverMiddleware (h : HttpHandler) (r : HttpRequest) : HttpResponse :=
  match h r with
  | HandlerOutcome.response s b => { status := s, body := b }
  | HandlerOutcome.panicked v => { status := 500, body := v }

/-- `traceMiddleware` (grpc_server.go:98-103): a pass-through (the trace
hook is a to-do in the source). -/
def traceMiddleware (h : HttpHandler) : HttpHandler := fun r => h r

/-- The gateway's outermost handler chain
(`s.recoverMiddleware(s.traceMiddleware(httpMux))`, grpc_server.go:76). -/
def gatewayHandler (mux : HttpHandler) (r : HttpRequest) : HttpResponse :=
  recoverMiddleware (traceMiddleware mux) r

/-- The HTTP listener serving a stream of requests: each request is
handled independently by the wrapped handler chain, so the listener keeps
producing responses after any panic. -/
def serveAll (mux : HttpHandler) (rs : List HttpRequest) : List HttpResponse :=
  rs.map (gatewayHandler mux)

/-- C7: a request whose handling panics is answered by the outermost
gateway handler with status 500 and a body equal to the panic value's
string representation (hence non-empty for a non-empty panic value), and
the listener serves every subsequent request exactly as it would have
without the panic. -/
theorem recover_middleware_spec (mux : HttpHandler) (r : HttpRequest) (v : String)
    (hp : mux r = HandlerOutcome.panicked v) (rs : List HttpRequest) :
    gatewayHandler mux r = { status := 500, body := v }
    ∧ (v ≠ "" → (gatewayHandler mux r).body ≠ "")
    ∧ serveAll mux (r :: rs) = { status := 500, body := v } :: serveAll mux rs := by
  have h1 : gatewayHandler mux r = { status := 500, body := v } := by
    simp [gatewayHandler, recoverMiddleware, traceMiddleware, hp]
  refine ⟨h1, ?_, ?_⟩
  · intro hv
    rw [h1]
    exact hv
  · simp [serveAll, h1]

/-- Witness for `recover_middleware_spec` with a concrete panicking mux. -/
theorem recover_middleware_spec_witness :
    gatewayHandler (fun _ => HandlerOutcome.panicked "boom") { path := "/x" } =
      { status := 500, body := "boom" }
    ∧ ("boom" ≠ "" →
        (gatewayHandler (fun _ => HandlerOutcome.panicked "boom")
          { path := "/x" }).body ≠ "")
    ∧ serveAll (fun _ => HandlerOutcome.panicked "boom")
        ({ path := "/x" } :: [{ path := "/y" }]) =
      { status := 500, body := "boom" } ::
        serveAll (fun _ => HandlerOutcome.panicked "boom") [{ path := "/y" }] :=
  recover_middleware_spec (fun _ => HandlerOutcome.panicked "boom") { path := "/x" }
    "boom" rfl [{ path := "/y" }]

end Gsv
